import Mathlib

/-!
Verification of the conversion orchestration core of
`quackcore/integrations/pandoc/operations/md_to_docx.py`.

The module drives an external pandoc engine: it validates the Markdown
input, runs a bounded retry loop around single conversion attempts,
validates the produced DOCX artifact, and records aggregate metrics.
Filesystem answers, engine behaviour and structural-validation verdicts
are supplied by an explicit environment; wall-clock time is abstracted
as environment-supplied elapsed durations.
-/

/-- A filesystem path as the orchestrator sees it: `path` is the full
textual form (Python `str(p)`), `name` the final component (`p.name`). -/
structure PyPath where
  path : String
  name : String
deriving Repr, DecidableEq

/-- A reported file size: `none` is Python `None`; `some none` is a value
that `int(...)` cannot convert (raises `TypeError`/`ValueError`);
`some (some n)` converts to the integer `n`. -/
abbrev SizeVal := Option (Option Int)

/-- The `int(x) if x is not None else 0` coercion with `TypeError` /
`ValueError` falling back to `0`, as written in `_validate_markdown_input`,
`_get_conversion_output` and `validate_conversion`. -/
def coerceSize : SizeVal → Int
  | none => 0
  | some none => 0
  | some (some n) => n

/-- Result of `fs.service.get_file_info`: success flag, existence flag and
the reported size. -/
structure FileInfo where
  success : Bool
  exists' : Bool
  size : SizeVal
deriving Repr, DecidableEq

/-- Result of `fs.service.read_text`: success flag, error text and content. -/
structure ReadResult where
  success : Bool
  error : String
  content : String
deriving Repr, DecidableEq

/-- Modelled from the spec: the retry policy of `PandocConfig`
(`quackcore.integrations.pandoc.config`, not under `src/`); §3:
`max_conversion_retries : int`, `conversion_retry_delay : seconds`. -/
structure RetryConfig where
  max_conversion_retries : Int
  conversion_retry_delay : ℚ
deriving Repr, DecidableEq

/-- Modelled from the spec: the validation policy of `PandocConfig`
(not under `src/`); §3: `min_file_size`, `conversion_ratio_threshold`,
`verify_structure`, `check_links`. -/
structure ValidationConfig where
  min_file_size : Int
  conversion_ratio_threshold : ℚ
  verify_structure : Bool
  check_links : Bool
deriving Repr, DecidableEq

/-- Modelled from the spec: the parts of `PandocConfig` the orchestration
core reads (not under `src/`). -/
structure PandocConfig where
  retry_mechanism : RetryConfig
  validation : ValidationConfig
deriving Repr, DecidableEq

/-- Modelled from the spec: `ConversionMetrics`
(`quackcore.integrations.pandoc.models`, not under `src/`); §3: counters
`successful_conversions` / `failed_conversions`, a mapping `errors` from
source path to last error message (overwritten on repeat failure), and
per-file timing/size samples. The mapping is an association list with
unique keys updated by `setError`. -/
structure ConversionMetrics where
  successful_conversions : Nat
  failed_conversions : Nat
  errors : List (String × String)
  samples : List (String × ℚ × Int × Int)
deriving Repr, DecidableEq

/-- Python dict assignment `errors[k] = v`: overwrite the entry for `k`
if present, otherwise append it. -/
def setError (errors : List (String × String)) (k v : String) :
    List (String × String) :=
  if errors.any (fun p => p.1 == k) then
    errors.map (fun p => if p.1 == k then (k, v) else p)
  else
    errors ++ [(k, v)]

/-- Python dict lookup `errors.get(k)`. -/
def getError (errors : List (String × String)) (k : String) : Option String :=
  match errors.find? (fun p => p.1 == k) with
  | some p => some p.2
  | none => none

/-- Modelled from the spec: `ConversionDetails`
(`quackcore.integrations.pandoc.models`, not under `src/`); §3: source
format, target format, conversion time, output size, input size. -/
structure ConversionDetails where
  source_format : String
  target_format : String
  conversion_time : ℚ
  output_size : Int
  input_size : Int
deriving Repr, DecidableEq

/-- Modelled from the spec: `IntegrationResult`
(`quackcore.integrations.core.results`, not under `src/`); §3: tagged
success/failure, success carrying `(output path, ConversionDetails)` and a
message, failure carrying a message. -/
inductive IntegrationResult where
  | success (content : PyPath × ConversionDetails) (message : String)
  | error (message : String)
deriving Repr, DecidableEq

/-- Modelled from the spec: `track_metrics`
(`quackcore.integrations.pandoc.operations.utils`, not under `src/`);
§4.4: on success record the elapsed time plus input/output sizes into the
metrics aggregate; it touches neither counter nor the error map. -/
def track_metrics (filename : String) (conversion_time : ℚ)
    (original_size output_size : Int) (m : ConversionMetrics) :
    ConversionMetrics :=
  { m with samples :=
      m.samples ++ [(filename, conversion_time, original_size, output_size)] }

/-- Modelled from the spec: `check_file_size`
(`quackcore.integrations.pandoc.operations.utils`, not under `src/`);
§4.3 rule 2: the check fails exactly when `output_size < min_file_size`,
returning a validity flag and the error messages. -/
def check_file_size (output_size min_file_size : Int) :
    Bool × List String :=
  if output_size < min_file_size then
    (false, ["Output file size " ++ toString output_size ++
      " is below the minimum threshold " ++ toString min_file_size])
  else
    (true, [])

/-- Modelled from the spec: `check_conversion_ratio`
(`quackcore.integrations.pandoc.operations.utils`, not under `src/`);
§4.3 rule 3: the check fails exactly when
`output_size / max(input_size, 1) < conversion_ratio_threshold`. The
rational comparison is written in cross-multiplied integer form, which
`check_conversion_ratio_iff` proves equivalent to the division formula. -/
def check_conversion_ratio (output_size original_size : Int)
    (threshold : ℚ) : Bool × List String :=
  if output_size * (threshold.den : Int) <
      threshold.num * max original_size 1 then
    (false, ["Conversion ratio for output size " ++ toString output_size ++
      " relative to input size " ++ toString original_size ++
      " is below the threshold"])
  else
    (true, [])

/-- Python `not s.strip()`: true exactly when the string is empty or
whitespace-only. -/
def pyStripIsEmpty (s : String) : Bool :=
  s.toList.all (fun c => c.isWhitespace)

/-- Python `needle in hay` on strings. -/
def strContains (hay needle : String) : Bool :=
  needle == "" || (hay.splitOn needle).length != 1

/-- Truthiness test plus containment, as in
`core_props.title and source_filename in str(core_props.title)`:
the field present (`some`), non-empty, and containing the needle. -/
def truthyContains (field : Option String) (needle : String) : Bool :=
  match field with
  | none => false
  | some s => s != "" && strContains s needle

/-- Environment of `_check_docx_metadata`: whether `python-docx` imports,
whether `Document(path)` raises (with which message), and the
`core_properties` fields of the opened document. -/
structure MetaEnv where
  docxAvailable : Bool
  openError : Option String
  hasCoreProperties : Bool
  title : Option String
  comments : Option String
  subject : Option String
deriving Repr, DecidableEq

/-- `_check_docx_metadata`: purely diagnostic; its only output is the
debug-log lines it emits (the Python function returns `None` and catches
every exception internally). -/
def _check_docx_metadata (m : MetaEnv) (_docx_path source_path : PyPath)
    (check_links : Bool) : List String :=
  if !m.docxAvailable then
    ["python-docx not available for detailed metadata check"]
  else
    match m.openError with
    | some e => ["Could not check document metadata: " ++ e]
    | none =>
      let source_filename := source_path.name
      let source_found :=
        m.hasCoreProperties &&
          (truthyContains m.title source_filename ||
            truthyContains m.comments source_filename ||
            truthyContains m.subject source_filename)
      if !source_found && check_links then
        ["Source file reference missing in document metadata: " ++
          source_filename]
      else
        []

/-- Environment of one `validate_conversion` run: the answer of
`fs.service.get_file_info(output_path)`, the answer of the separate
`output_path.exists()` probe, the verdict of `validate_docx_structure`
(an external helper), and the metadata environment. -/
structure ValidateEnv where
  outputInfo : FileInfo
  outputPathExists : Bool
  structureValid : Bool
  structureErrors : List String
  meta : MetaEnv
deriving Repr, DecidableEq

/-- `validate_conversion` together with the debug-log lines of the
metadata check (first: the returned error list; second: the logs, which
the Python code sends to the logger and discards). -/
def validate_conversion_logged (env : ValidateEnv)
    (output_path input_path : PyPath) (original_size : Int)
    (config : PandocConfig) : List String × List String :=
  let validation := config.validation
  if !(env.outputInfo.success && env.outputInfo.exists') then
    (["Output file does not exist: " ++ output_path.path], [])
  else
    let output_size := coerceSize env.outputInfo.size
    let size_check := check_file_size output_size validation.min_file_size
    let errs1 := if size_check.1 then [] else size_check.2
    let ratio_check := check_conversion_ratio output_size original_size
      validation.conversion_ratio_threshold
    let errs2 := if ratio_check.1 then [] else ratio_check.2
    if validation.verify_structure && env.outputPathExists then
      let errs3 := if env.structureValid then [] else env.structureErrors
      let logs := _check_docx_metadata env.meta output_path input_path
        validation.check_links
      (errs1 ++ errs2 ++ errs3, logs)
    else
      (errs1 ++ errs2, [])

/-- `validate_conversion`: the list of validation error messages
(empty = valid). -/
def validate_conversion (env : ValidateEnv)
    (output_path input_path : PyPath) (original_size : Int)
    (config : PandocConfig) : List String :=
  (validate_conversion_logged env output_path input_path original_size
    config).1

/-- Behaviour of one attempt of the retry loop body, as the environment
determines it. `raises engineInvoked isIntegration msg`: some step of
`_convert_markdown_to_docx_once` / `_get_conversion_output` /
`validate_conversion` raised an exception with message `msg`;
`engineInvoked` says whether the pandoc engine had been invoked before the
raise, `isIntegration` whether the exception is a `QuackIntegrationError`.
`completes t sz venv`: the attempt produced an artifact, the loop observed
conversion time `t` and coerced output size `sz`, and `validate_conversion`
runs in environment `venv`. -/
inductive AttemptSpec where
  | raises (engineInvoked : Bool) (isIntegration : Bool) (msg : String)
  | completes (conversionTime : ℚ) (outputSize : Int) (venv : ValidateEnv)

/-- Environment of one `convert_markdown_to_docx` call: the input-file
info, the outcome of `fs.service.read_text` (`Except.error` meaning the
call itself raised), and the behaviour of each successive attempt. -/
structure ConvertEnv where
  inputInfo : FileInfo
  readText : Except String ReadResult
  attempts : Nat → AttemptSpec

/-- `_validate_markdown_input`: existence check, size coercion, content
read and emptiness check. `Except.error m` models raising
`QuackIntegrationError` with message `m`; `Except.ok n` returns the input
size. -/
def _validate_markdown_input (env : ConvertEnv) (markdown_path : PyPath) :
    Except String Int :=
  if !(env.inputInfo.success && env.inputInfo.exists') then
    .error ("Input file not found: " ++ markdown_path.path)
  else
    let original_size := coerceSize env.inputInfo.size
    match env.readText with
    | .error e => .error ("Could not read Markdown file: " ++ e)
    | .ok read_result =>
      if !read_result.success then
        .error ("Could not read Markdown file: " ++ read_result.error)
      else if pyStripIsEmpty read_result.content then
        .error ("Markdown file is empty: " ++ markdown_path.path)
      else
        .ok original_size

/-- Mutable state threaded through one orchestration call: the metrics
aggregate plus ghost counters for engine invocations, `time.sleep` calls
and loop iterations started. -/
structure ConvState where
  metrics : ConversionMetrics
  engineCalls : Nat
  sleepCalls : Nat
  attemptsMade : Nat
deriving Repr, DecidableEq

/-- The `while retry_count < max_retries` loop of
`convert_markdown_to_docx`. `fuel` is `max_retries - retry_count` (the
loop guard holds exactly when it is positive); `idx` numbers the attempt;
after a failed attempt the Python code increments `retry_count` and fails
terminally when `retry_count >= max_retries`, i.e. exactly when the fuel
left is `0`. -/
def convertLoop (env : ConvertEnv) (markdown_path output_path : PyPath)
    (config : PandocConfig) (original_size : Int) :
    Nat → Nat → ConvState → IntegrationResult × ConvState
  | 0, _, st => (.error "Conversion failed after maximum retries", st)
  | fuel + 1, idx, st =>
    let st1 := { st with attemptsMade := st.attemptsMade + 1 }
    match env.attempts idx with
    | .raises engineInvoked isIntegration msg =>
      let st2 := { st1 with
        engineCalls := st1.engineCalls + (if engineInvoked then 1 else 0) }
      if fuel = 0 then
        (.error ((if isIntegration then "Integration error: "
            else "Failed to convert Markdown to DOCX: ") ++ msg),
          { st2 with metrics := { st2.metrics with
              failed_conversions := st2.metrics.failed_conversions + 1,
              errors := setError st2.metrics.errors markdown_path.path msg } })
      else
        convertLoop env markdown_path output_path config original_size fuel
          (idx + 1) { st2 with sleepCalls := st2.sleepCalls + 1 }
    | .completes conversionTime outputSize venv =>
      let st2 := { st1 with engineCalls := st1.engineCalls + 1 }
      let validation_errors := validate_conversion venv output_path
        markdown_path original_size config
      if validation_errors.isEmpty then
        let m1 := track_metrics markdown_path.name conversionTime
          original_size outputSize st2.metrics
        let details : ConversionDetails :=
          { source_format := "markdown", target_format := "docx",
            conversion_time := conversionTime, output_size := outputSize,
            input_size := original_size }
        (.success (output_path, details)
            ("Successfully converted " ++ markdown_path.path ++ " to DOCX"),
          { st2 with metrics := { m1 with
              successful_conversions := m1.successful_conversions + 1 } })
      else
        let error_str := String.intercalate "; " validation_errors
        if fuel = 0 then
          (.error ("Conversion failed after maximum retries: " ++ error_str),
            { st2 with metrics := { st2.metrics with
                failed_conversions := st2.metrics.failed_conversions + 1,
                errors := setError st2.metrics.errors markdown_path.path
                  error_str } })
        else
          convertLoop env markdown_path output_path config original_size fuel
            (idx + 1) { st2 with sleepCalls := st2.sleepCalls + 1 }

/-- `convert_markdown_to_docx`: validate the input, run the retry loop;
an exception from input validation is caught by the outer handler, which
records the failure and returns a structured error result. Returns the
`IntegrationResult` and the final threaded state. -/
def convert_markdown_to_docx (env : ConvertEnv)
    (markdown_path output_path : PyPath) (config : PandocConfig)
    (metrics : ConversionMetrics) : IntegrationResult × ConvState :=
  let st0 : ConvState :=
    { metrics := metrics, engineCalls := 0, sleepCalls := 0,
      attemptsMade := 0 }
  match _validate_markdown_input env markdown_path with
  | .error msg =>
    (.error ("Failed to convert Markdown to DOCX: " ++ msg),
      { st0 with metrics := { metrics with
          failed_conversions := metrics.failed_conversions + 1,
          errors := setError metrics.errors markdown_path.path msg } })
  | .ok original_size =>
    convertLoop env markdown_path output_path config original_size
      config.retry_mechanism.max_conversion_retries.toNat 0 st0

/-- The message an attempt would contribute if it fails: the raised
exception's message, or the joined validation-error string; `none` when
the attempt succeeds. -/
def attemptErrorMsg (env : ConvertEnv) (markdown_path output_path : PyPath)
    (config : PandocConfig) (original_size : Int) (i : Nat) : Option String :=
  match env.attempts i with
  | .raises _ _ msg => some msg
  | .completes _ _ venv =>
    let errs := validate_conversion venv output_path markdown_path
      original_size config
    if errs.isEmpty then none else some (String.intercalate "; " errs)

/-- Fixture: a metadata environment with `python-docx` absent. -/
def fxMeta : MetaEnv :=
  { docxAvailable := false, openError := none, hasCoreProperties := false,
    title := none, comments := none, subject := none }

/-- Fixture: two attempts, delay 1s, `min_file_size` 100 bytes,
ratio threshold 1/2, structural verification on. -/
def fxConfig : PandocConfig :=
  { retry_mechanism :=
      { max_conversion_retries := 2, conversion_retry_delay := 1 },
    validation :=
      { min_file_size := 100, conversion_ratio_threshold := mkRat 1 2,
        verify_structure := true, check_links := true } }

/-- Fixture: the source path. -/
def fxMd : PyPath := { path := "in.md", name := "in.md" }

/-- Fixture: the destination path. -/
def fxOut : PyPath := { path := "out.docx", name := "out.docx" }

/-- Fixture: a validation environment whose artifact passes every check
(400 bytes against a 500-byte input). -/
def fxVenvOk : ValidateEnv :=
  { outputInfo := { success := true, exists' := true, size := some (some 400) },
    outputPathExists := true, structureValid := true, structureErrors := [],
    meta := fxMeta }

/-- Fixture: a validation environment whose artifact is empty and
structurally broken. -/
def fxVenvBad : ValidateEnv :=
  { outputInfo := { success := true, exists' := true, size := some (some 0) },
    outputPathExists := true, structureValid := false,
    structureErrors := ["DOCX document has no content"], meta := fxMeta }

/-- Fixture: a call environment where the 500-byte input validates and
every attempt produces the passing artifact. -/
def fxEnvOk : ConvertEnv :=
  { inputInfo := { success := true, exists' := true, size := some (some 500) },
    readText := .ok { success := true, error := "", content := "# title" },
    attempts := fun _ => .completes 1 400 fxVenvOk }

/-- Fixture: a call environment where the input file is missing. -/
def fxEnvMissing : ConvertEnv :=
  { fxEnvOk with
    inputInfo := { success := true, exists' := false, size := none } }

/-- Fixture: a call environment where every attempt raises a
`QuackIntegrationError` from the engine. -/
def fxEnvRaise : ConvertEnv :=
  { fxEnvOk with
    attempts := fun _ => .raises true true "Pandoc conversion failed: boom" }

/-- Fixture: a call environment whose input exists and reads fine but
whose reported size cannot be converted to an integer. -/
def fxEnvBadSize : ConvertEnv :=
  { fxEnvOk with
    inputInfo := { success := true, exists' := true, size := some none } }

/-- Fixture: a pre-populated metrics aggregate, holding a stale error
entry for the source path. -/
def fxMetrics : ConversionMetrics :=
  { successful_conversions := 3, failed_conversions := 4,
    errors := [("in.md", "old failure")], samples := [] }

theorem convertLoop_counts (env : ConvertEnv)
    (markdown_path output_path : PyPath) (config : PandocConfig)
    (original_size : Int) :
    ∀ fuel idx st, ∃ k, k ≤ fuel ∧ (1 ≤ fuel → 1 ≤ k) ∧
      (convertLoop env markdown_path output_path config original_size fuel
        idx st).2.attemptsMade = st.attemptsMade + k ∧
      (convertLoop env markdown_path output_path config original_size fuel
        idx st).2.sleepCalls = st.sleepCalls + (k - 1) ∧
      (convertLoop env markdown_path output_path config original_size fuel
        idx st).2.engineCalls ≤ st.engineCalls + k := by
  intro fuel
  induction fuel with
  | zero =>
    intro idx st
    exact ⟨0, by simp [convertLoop]⟩
  | succ n ih =>
    intro idx st
    rcases ha : env.attempts idx with ⟨eng, isInt, msg⟩ | ⟨t, sz, venv⟩
    · rcases Nat.eq_zero_or_pos n with hn | hn
      · subst hn
        refine ⟨1, le_refl 1, fun _ => le_refl 1, ?_, ?_, ?_⟩ <;>
          simp only [convertLoop, ha, if_pos rfl] <;>
          cases eng <;> simp
      · obtain ⟨k, hk, hk1, hatt, hslp, heng⟩ := ih (idx + 1)
          { st with
            attemptsMade := st.attemptsMade + 1,
            engineCalls := st.engineCalls + (if eng then 1 else 0),
            sleepCalls := st.sleepCalls + 1 }
        have h1 : 1 ≤ k := hk1 hn
        have hn0 : ¬ n = 0 := by omega
        refine ⟨k + 1, by omega, fun _ => by omega, ?_, ?_, ?_⟩ <;>
          simp only [convertLoop, ha, hn0, if_false] <;>
          simp at hatt hslp heng ⊢ <;>
          cases eng <;> simp_all <;> omega
    · by_cases hve : (validate_conversion venv output_path markdown_path
        original_size config).isEmpty
      · refine ⟨1, by omega, fun _ => le_refl 1, ?_, ?_, ?_⟩ <;>
          simp [convertLoop, ha, hve]
      · rcases Nat.eq_zero_or_pos n with hn | hn
        · subst hn
          refine ⟨1, le_refl 1, fun _ => le_refl 1, ?_, ?_, ?_⟩ <;>
            simp [convertLoop, ha, hve]
        · obtain ⟨k, hk, hk1, hatt, hslp, heng⟩ := ih (idx + 1)
            { st with
              attemptsMade := st.attemptsMade + 1,
              engineCalls := st.engineCalls + 1,
              sleepCalls := st.sleepCalls + 1 }
          have h1 : 1 ≤ k := hk1 hn
          have hn0 : ¬ n = 0 := by omega
          refine ⟨k + 1, by omega, fun _ => by omega, ?_, ?_, ?_⟩ <;>
            simp only [convertLoop, ha, hn0, if_false] <;>
            simp only [hve, if_false] <;>
            simp at hatt hslp heng ⊢ <;> omega

theorem convertLoop_dichotomy (env : ConvertEnv)
    (markdown_path output_path : PyPath) (config : PandocConfig)
    (original_size : Int) :
    ∀ fuel idx st, 1 ≤ fuel →
      ((∃ v m, (convertLoop env markdown_path output_path config
          original_size fuel idx st).1 = IntegrationResult.success v m) ∧
        (convertLoop env markdown_path output_path config original_size fuel
          idx st).2.metrics.successful_conversions =
            st.metrics.successful_conversions + 1 ∧
        (convertLoop env markdown_path output_path config original_size fuel
          idx st).2.metrics.failed_conversions =
            st.metrics.failed_conversions ∧
        (convertLoop env markdown_path output_path config original_size fuel
          idx st).2.metrics.errors = st.metrics.errors ∧
        ∃ s, (convertLoop env markdown_path output_path config original_size
          fuel idx st).2.metrics.samples = st.metrics.samples ++ [s]) ∨
      (∃ emsg j, j < fuel ∧
        attemptErrorMsg env markdown_path output_path config original_size
          (idx + j) = some emsg ∧
        ((convertLoop env markdown_path output_path config original_size fuel
            idx st).1 = IntegrationResult.error
              ("Integration error: " ++ emsg) ∨
          (convertLoop env markdown_path output_path config original_size fuel
            idx st).1 = IntegrationResult.error
              ("Failed to convert Markdown to DOCX: " ++ emsg) ∨
          (convertLoop env markdown_path output_path config original_size fuel
            idx st).1 = IntegrationResult.error
              ("Conversion failed after maximum retries: " ++ emsg)) ∧
        (convertLoop env markdown_path output_path config original_size fuel
          idx st).2.metrics.failed_conversions =
            st.metrics.failed_conversions + 1 ∧
        (convertLoop env markdown_path output_path config original_size fuel
          idx st).2.metrics.successful_conversions =
            st.metrics.successful_conversions ∧
        (convertLoop env markdown_path output_path config original_size fuel
          idx st).2.metrics.samples = st.metrics.samples ∧
        (convertLoop env markdown_path output_path config original_size fuel
          idx st).2.metrics.errors =
            setError st.metrics.errors markdown_path.path emsg) := by
  intro fuel
  induction fuel with
  | zero => intro idx st h; omega
  | succ n ih =>
    intro idx st _
    rcases ha : env.attempts idx with ⟨eng, isInt, msg⟩ | ⟨t, sz, venv⟩
    · rcases Nat.eq_zero_or_pos n with hn | hn
      · subst hn
        refine Or.inr ⟨msg, 0, by omega, ?_, ?_, ?_, ?_, ?_, ?_⟩ <;>
          simp only [convertLoop, ha, if_pos rfl, Nat.add_zero] <;>
          simp [attemptErrorMsg, ha]
        cases isInt <;> simp
      · have hn0 : ¬ n = 0 := by omega
        simp only [convertLoop, ha, hn0, if_false]
        rcases ih (idx + 1)
            { st with
              attemptsMade := st.attemptsMade + 1,
              engineCalls := st.engineCalls + (if eng then 1 else 0),
              sleepCalls := st.sleepCalls + 1 } hn with
          ⟨hsucc, h1, h2, h3, h4⟩ | ⟨emsg, j, hj, hmsg, hres, hf, hs, hsam, herr⟩
        · exact Or.inl ⟨hsucc, h1, h2, h3, h4⟩
        · refine Or.inr ⟨emsg, j + 1, by omega, ?_, hres, hf, hs, hsam, herr⟩
          have e : idx + (j + 1) = idx + 1 + j := by omega
          rw [e]
          exact hmsg
    · by_cases hve : (validate_conversion venv output_path markdown_path
        original_size config).isEmpty
      · refine Or.inl ⟨⟨(output_path,
            { source_format := "markdown", target_format := "docx",
              conversion_time := t, output_size := sz,
              input_size := original_size }),
            "Successfully converted " ++ markdown_path.path ++ " to DOCX",
            ?_⟩, ?_, ?_, ?_,
            ⟨(markdown_path.name, t, original_size, sz), ?_⟩⟩ <;>
          simp [convertLoop, ha, hve, track_metrics]
      · rcases Nat.eq_zero_or_pos n with hn | hn
        · subst hn
          refine Or.inr ⟨String.intercalate "; " (validate_conversion venv
            output_path markdown_path original_size config), 0, by omega,
            ?_, ?_, ?_, ?_, ?_, ?_⟩ <;>
            simp only [convertLoop, ha, if_pos rfl, Nat.add_zero, hve,
              if_false] <;>
            simp [attemptErrorMsg, ha, hve]
        · have hn0 : ¬ n = 0 := by omega
          simp only [convertLoop, ha, hn0, if_false, hve]
          rcases ih (idx + 1)
              { st with
                attemptsMade := st.attemptsMade + 1,
                engineCalls := st.engineCalls + 1,
                sleepCalls := st.sleepCalls + 1 } hn with
            ⟨hsucc, h1, h2, h3, h4⟩ |
              ⟨emsg, j, hj, hmsg, hres, hf, hs, hsam, herr⟩
          · exact Or.inl ⟨hsucc, h1, h2, h3, h4⟩
          · refine Or.inr ⟨emsg, j + 1, by omega, ?_, hres, hf, hs, hsam,
              herr⟩
            have e : idx + (j + 1) = idx + 1 + j := by omega
            rw [e]
            exact hmsg

theorem check_conversion_ratio_iff (output_size original_size : Int)
    (threshold : ℚ) :
    output_size * (threshold.den : Int) <
        threshold.num * max original_size 1 ↔
      (output_size : ℚ) / max (original_size : ℚ) 1 < threshold := by
  have hM : (0 : ℚ) < max (original_size : ℚ) 1 :=
    lt_of_lt_of_le one_pos (le_max_right _ _)
  have hden : (0 : ℚ) < (threshold.den : ℚ) := by
    exact_mod_cast threshold.den_pos
  have key := div_mul_cancel₀ (threshold.num : ℚ) (ne_of_gt hden)
  rw [Rat.num_div_den threshold] at key
  rw [div_lt_iff₀ hM,
    show threshold * max (original_size : ℚ) 1 =
        (threshold.num : ℚ) * max (original_size : ℚ) 1 /
          (threshold.den : ℚ) by
      rw [← key, mul_right_comm, mul_div_cancel_right₀ _ (ne_of_gt hden)],
    lt_div_iff₀ hden]
  rw [show max (original_size : ℚ) 1 =
      ((max original_size 1 : Int) : ℚ) by push_cast; rfl]
  constructor <;> intro h <;> exact_mod_cast h

/-- C1: with `max_conversion_retries ≥ 1`, a call to
`convert_markdown_to_docx` increments exactly one of
`successful_conversions` / `failed_conversions` by exactly 1; a failing
call gains or updates exactly one `errors` entry, keyed by the source
path, and a successful call leaves `errors` unchanged. -/
theorem c1_counter_exclusivity (env : ConvertEnv)
    (markdown_path output_path : PyPath) (config : PandocConfig)
    (metrics : ConversionMetrics)
    (h : 1 ≤ config.retry_mechanism.max_conversion_retries) :
    ((∃ v m, (convert_markdown_to_docx env markdown_path output_path config
        metrics).1 = IntegrationResult.success v m) ∧
      (convert_markdown_to_docx env markdown_path output_path config
        metrics).2.metrics.successful_conversions =
          metrics.successful_conversions + 1 ∧
      (convert_markdown_to_docx env markdown_path output_path config
        metrics).2.metrics.failed_conversions = metrics.failed_conversions ∧
      (convert_markdown_to_docx env markdown_path output_path config
        metrics).2.metrics.errors = metrics.errors) ∨
    ((∃ m, (convert_markdown_to_docx env markdown_path output_path config
        metrics).1 = IntegrationResult.error m) ∧
      (convert_markdown_to_docx env markdown_path output_path config
        metrics).2.metrics.failed_conversions =
          metrics.failed_conversions + 1 ∧
      (convert_markdown_to_docx env markdown_path output_path config
        metrics).2.metrics.successful_conversions =
          metrics.successful_conversions ∧
      ∃ emsg, (convert_markdown_to_docx env markdown_path output_path config
        metrics).2.metrics.errors =
          setError metrics.errors markdown_path.path emsg) := by
  cases hval : _validate_markdown_input env markdown_path with
  | error msg =>
    refine Or.inr ⟨⟨"Failed to convert Markdown to DOCX: " ++ msg, ?_⟩,
      ?_, ?_, ⟨msg, ?_⟩⟩ <;>
      simp [convert_markdown_to_docx, hval]
  | ok original_size =>
    have hfuel : 1 ≤ config.retry_mechanism.max_conversion_retries.toNat := by
      omega
    simp only [convert_markdown_to_docx, hval]
    rcases convertLoop_dichotomy env markdown_path output_path config
        original_size config.retry_mechanism.max_conversion_retries.toNat 0
        { metrics := metrics, engineCalls := 0, sleepCalls := 0,
          attemptsMade := 0 } hfuel with
      ⟨⟨v, m, hres⟩, h1, h2, h3, _⟩ |
        ⟨emsg, j, _, _, hres, hf, hs, _, herr⟩
    · exact Or.inl ⟨⟨v, m, hres⟩, h1, h2, h3⟩
    · refine Or.inr ⟨?_, hf, hs, ⟨emsg, herr⟩⟩
      rcases hres with hres | hres | hres <;> exact ⟨_, hres⟩

/-- C1 witness: a concrete successful call with two retries configured. -/
theorem c1_counter_exclusivity_witness :
    ((∃ v m, (convert_markdown_to_docx fxEnvOk fxMd fxOut fxConfig
        fxMetrics).1 = IntegrationResult.success v m) ∧
      (convert_markdown_to_docx fxEnvOk fxMd fxOut fxConfig
        fxMetrics).2.metrics.successful_conversions =
          fxMetrics.successful_conversions + 1 ∧
      (convert_markdown_to_docx fxEnvOk fxMd fxOut fxConfig
        fxMetrics).2.metrics.failed_conversions =
          fxMetrics.failed_conversions ∧
      (convert_markdown_to_docx fxEnvOk fxMd fxOut fxConfig
        fxMetrics).2.metrics.errors = fxMetrics.errors) ∨
    ((∃ m, (convert_markdown_to_docx fxEnvOk fxMd fxOut fxConfig
        fxMetrics).1 = IntegrationResult.error m) ∧
      (convert_markdown_to_docx fxEnvOk fxMd fxOut fxConfig
        fxMetrics).2.metrics.failed_conversions =
          fxMetrics.failed_conversions + 1 ∧
      (convert_markdown_to_docx fxEnvOk fxMd fxOut fxConfig
        fxMetrics).2.metrics.successful_conversions =
          fxMetrics.successful_conversions ∧
      ∃ emsg, (convert_markdown_to_docx fxEnvOk fxMd fxOut fxConfig
        fxMetrics).2.metrics.errors =
          setError fxMetrics.errors fxMd.path emsg) :=
  c1_counter_exclusivity fxEnvOk fxMd fxOut fxConfig fxMetrics (by decide)

/-- C2: with `max_conversion_retries = N ≥ 1`, the engine is invoked at
most `N` times, the loop starts at most `N` attempts, and `time.sleep`
runs exactly `attempts_made - 1` times, for success and failure alike. -/
theorem c2_attempt_bound (env : ConvertEnv)
    (markdown_path output_path : PyPath) (config : PandocConfig)
    (metrics : ConversionMetrics) (N : Nat) (h1 : 1 ≤ N)
    (hN : config.retry_mechanism.max_conversion_retries = (N : Int)) :
    (convert_markdown_to_docx env markdown_path output_path config
      metrics).2.engineCalls ≤ N ∧
    (convert_markdown_to_docx env markdown_path output_path config
      metrics).2.attemptsMade ≤ N ∧
    (convert_markdown_to_docx env markdown_path output_path config
      metrics).2.sleepCalls =
        (convert_markdown_to_docx env markdown_path output_path config
          metrics).2.attemptsMade - 1 := by
  cases hval : _validate_markdown_input env markdown_path with
  | error msg =>
    refine ⟨?_, ?_, ?_⟩ <;> simp [convert_markdown_to_docx, hval]
  | ok original_size =>
    simp only [convert_markdown_to_docx, hval]
    have htn : config.retry_mechanism.max_conversion_retries.toNat = N := by
      omega
    rw [htn]
    obtain ⟨k, hk, _, hatt, hslp, heng⟩ := convertLoop_counts env
      markdown_path output_path config original_size N 0
      { metrics := metrics, engineCalls := 0, sleepCalls := 0,
        attemptsMade := 0 }
    refine ⟨?_, ?_, ?_⟩ <;> simp at hatt hslp heng <;> omega

/-- C2 witness: the concrete successful call under `N = 2`. -/
theorem c2_attempt_bound_witness :
    (convert_markdown_to_docx fxEnvOk fxMd fxOut fxConfig
      fxMetrics).2.engineCalls ≤ 2 ∧
    (convert_markdown_to_docx fxEnvOk fxMd fxOut fxConfig
      fxMetrics).2.attemptsMade ≤ 2 ∧
    (convert_markdown_to_docx fxEnvOk fxMd fxOut fxConfig
      fxMetrics).2.sleepCalls =
        (convert_markdown_to_docx fxEnvOk fxMd fxOut fxConfig
          fxMetrics).2.attemptsMade - 1 :=
  c2_attempt_bound fxEnvOk fxMd fxOut fxConfig fxMetrics 2 (by decide)
    (by decide)

/-- C9: with `max_conversion_retries ≤ 0` and a valid input, the loop
never runs: the call returns the bare maximum-retries failure, the engine
is never invoked and the metrics aggregate is left untouched. -/
theorem c9_zero_retry_boundary (env : ConvertEnv)
    (markdown_path output_path : PyPath) (config : PandocConfig)
    (metrics : ConversionMetrics) (original_size : Int)
    (hmax : config.retry_mechanism.max_conversion_retries ≤ 0)
    (hval : _validate_markdown_input env markdown_path =
      Except.ok original_size) :
    (convert_markdown_to_docx env markdown_path output_path config
      metrics).1 =
        IntegrationResult.error "Conversion failed after maximum retries" ∧
    (convert_markdown_to_docx env markdown_path output_path config
      metrics).2.metrics = metrics ∧
    (convert_markdown_to_docx env markdown_path output_path config
      metrics).2.engineCalls = 0 ∧
    (convert_markdown_to_docx env markdown_path output_path config
      metrics).2.sleepCalls = 0 ∧
    (convert_markdown_to_docx env markdown_path output_path config
      metrics).2.attemptsMade = 0 := by
  have htn : config.retry_mechanism.max_conversion_retries.toNat = 0 := by
    omega
  refine ⟨?_, ?_, ?_, ?_, ?_⟩ <;>
    simp [convert_markdown_to_docx, hval, htn, convertLoop]

/-- C9 witness: the concrete valid-input call with zero retries allowed. -/
theorem c9_zero_retry_boundary_witness :
    (convert_markdown_to_docx fxEnvOk fxMd fxOut
      { fxConfig with retry_mechanism :=
          { max_conversion_retries := 0, conversion_retry_delay := 1 } }
      fxMetrics).1 =
        IntegrationResult.error "Conversion failed after maximum retries" ∧
    (convert_markdown_to_docx fxEnvOk fxMd fxOut
      { fxConfig with retry_mechanism :=
          { max_conversion_retries := 0, conversion_retry_delay := 1 } }
      fxMetrics).2.metrics = fxMetrics ∧
    (convert_markdown_to_docx fxEnvOk fxMd fxOut
      { fxConfig with retry_mechanism :=
          { max_conversion_retries := 0, conversion_retry_delay := 1 } }
      fxMetrics).2.engineCalls = 0 ∧
    (convert_markdown_to_docx fxEnvOk fxMd fxOut
      { fxConfig with retry_mechanism :=
          { max_conversion_retries := 0, conversion_retry_delay := 1 } }
      fxMetrics).2.sleepCalls = 0 ∧
    (convert_markdown_to_docx fxEnvOk fxMd fxOut
      { fxConfig with retry_mechanism :=
          { max_conversion_retries := 0, conversion_retry_delay := 1 } }
      fxMetrics).2.attemptsMade = 0 :=
  c9_zero_retry_boundary fxEnvOk fxMd fxOut _ fxMetrics 500 (by decide)
    (by rfl)

/-- C3: `convert_markdown_to_docx` always returns a structured
`IntegrationResult` (never an exception); an input-validation exception is
caught, recorded with its message, and wrapped in a failure result; a
call that ends in failure after valid input records, as its error entry,
the message of an exception or validation failure that actually occurred
in some attempt of the retry loop. -/
theorem c3_exception_free (env : ConvertEnv)
    (markdown_path output_path : PyPath) (config : PandocConfig)
    (metrics : ConversionMetrics) :
    ((∃ v m, (convert_markdown_to_docx env markdown_path output_path config
        metrics).1 = IntegrationResult.success v m) ∨
      (∃ m, (convert_markdown_to_docx env markdown_path output_path config
        metrics).1 = IntegrationResult.error m)) ∧
    (∀ msg, _validate_markdown_input env markdown_path = Except.error msg →
      (convert_markdown_to_docx env markdown_path output_path config
        metrics).1 = IntegrationResult.error
          ("Failed to convert Markdown to DOCX: " ++ msg) ∧
      (convert_markdown_to_docx env markdown_path output_path config
        metrics).2.metrics.failed_conversions =
          metrics.failed_conversions + 1 ∧
      (convert_markdown_to_docx env markdown_path output_path config
        metrics).2.metrics.errors =
          setError metrics.errors markdown_path.path msg) ∧
    (∀ original_size, _validate_markdown_input env markdown_path =
        Except.ok original_size →
      1 ≤ config.retry_mechanism.max_conversion_retries →
      ∀ m, (convert_markdown_to_docx env markdown_path output_path config
        metrics).1 = IntegrationResult.error m →
      ∃ emsg j, attemptErrorMsg env markdown_path output_path config
          original_size j = some emsg ∧
        (convert_markdown_to_docx env markdown_path output_path config
          metrics).2.metrics.errors =
            setError metrics.errors markdown_path.path emsg ∧
        (convert_markdown_to_docx env markdown_path output_path config
          metrics).2.metrics.failed_conversions =
            metrics.failed_conversions + 1) := by
  refine ⟨?_, ?_, ?_⟩
  · cases hval : _validate_markdown_input env markdown_path with
    | error msg =>
      exact Or.inr ⟨"Failed to convert Markdown to DOCX: " ++ msg,
        by simp [convert_markdown_to_docx, hval]⟩
    | ok original_size =>
      simp only [convert_markdown_to_docx, hval]
      rcases Nat.eq_zero_or_pos
          config.retry_mechanism.max_conversion_retries.toNat with hf | hf
      · rw [hf]
        exact Or.inr ⟨"Conversion failed after maximum retries",
          by simp [convertLoop]⟩
      · rcases convertLoop_dichotomy env markdown_path output_path config
            original_size config.retry_mechanism.max_conversion_retries.toNat
            0 { metrics := metrics, engineCalls := 0, sleepCalls := 0,
                attemptsMade := 0 } hf with
          ⟨⟨v, m, hres⟩, _⟩ | ⟨emsg, j, _, _, hres, _⟩
        · exact Or.inl ⟨v, m, hres⟩
        · rcases hres with hres | hres | hres <;> exact Or.inr ⟨_, hres⟩
  · intro msg hval
    refine ⟨?_, ?_, ?_⟩ <;> simp [convert_markdown_to_docx, hval]
  · intro original_size hval hmax m hres
    have hfuel : 1 ≤ config.retry_mechanism.max_conversion_retries.toNat :=
      by omega
    simp only [convert_markdown_to_docx, hval] at hres ⊢
    rcases convertLoop_dichotomy env markdown_path output_path config
        original_size config.retry_mechanism.max_conversion_retries.toNat
        0 { metrics := metrics, engineCalls := 0, sleepCalls := 0,
            attemptsMade := 0 } hfuel with
      ⟨⟨v, m', hres'⟩, _⟩ | ⟨emsg, j, _, hmsg, _, hf', _, _, herr⟩
    · rw [hres'] at hres
      exact absurd hres (by simp)
    · exact ⟨emsg, j, by simpa using hmsg, herr, hf'⟩

/-- C3 witness: a call whose every attempt raises is caught and recorded;
totality and the loop-failure recording conjunct applied at it. -/
theorem c3_exception_free_witness :
    (∃ emsg j, attemptErrorMsg fxEnvRaise fxMd fxOut fxConfig 500 j =
        some emsg ∧
      (convert_markdown_to_docx fxEnvRaise fxMd fxOut fxConfig
        fxMetrics).2.metrics.errors =
          setError fxMetrics.errors fxMd.path emsg ∧
      (convert_markdown_to_docx fxEnvRaise fxMd fxOut fxConfig
        fxMetrics).2.metrics.failed_conversions =
          fxMetrics.failed_conversions + 1) :=
  (c3_exception_free fxEnvRaise fxMd fxOut fxConfig fxMetrics).2.2 500
    (by rfl) (by decide) _ (by rfl)

/-- C4: if the input file is missing (the file-info probe fails or
reports non-existence), the call fails with a message naming the missing
path, the engine is never invoked, no attempt or sleep happens, and the
only metrics update is the single failure record. -/
theorem c4_missing_input (env : ConvertEnv)
    (markdown_path output_path : PyPath) (config : PandocConfig)
    (metrics : ConversionMetrics)
    (h : env.inputInfo.success = false ∨ env.inputInfo.exists' = false) :
    (convert_markdown_to_docx env markdown_path output_path config
      metrics).1 = IntegrationResult.error
        ("Failed to convert Markdown to DOCX: " ++
          ("Input file not found: " ++ markdown_path.path)) ∧
    (convert_markdown_to_docx env markdown_path output_path config
      metrics).2.engineCalls = 0 ∧
    (convert_markdown_to_docx env markdown_path output_path config
      metrics).2.attemptsMade = 0 ∧
    (convert_markdown_to_docx env markdown_path output_path config
      metrics).2.sleepCalls = 0 ∧
    (convert_markdown_to_docx env markdown_path output_path config
      metrics).2.metrics.failed_conversions =
        metrics.failed_conversions + 1 ∧
    (convert_markdown_to_docx env markdown_path output_path config
      metrics).2.metrics.successful_conversions =
        metrics.successful_conversions ∧
    (convert_markdown_to_docx env markdown_path output_path config
      metrics).2.metrics.errors = setError metrics.errors markdown_path.path
        ("Input file not found: " ++ markdown_path.path) ∧
    (convert_markdown_to_docx env markdown_path output_path config
      metrics).2.metrics.samples = metrics.samples := by
  have hc : (env.inputInfo.success && env.inputInfo.exists') = false := by
    rcases h with h | h <;> simp [h]
  have hval : _validate_markdown_input env markdown_path =
      Except.error ("Input file not found: " ++ markdown_path.path) := by
    simp [_validate_markdown_input, hc]
  refine ⟨?_, ?_, ?_, ?_, ?_, ?_, ?_, ?_⟩ <;>
    simp [convert_markdown_to_docx, hval]

/-- C4 witness: the concrete missing-input call. -/
theorem c4_missing_input_witness :
    (convert_markdown_to_docx fxEnvMissing fxMd fxOut fxConfig
      fxMetrics).1 = IntegrationResult.error
        ("Failed to convert Markdown to DOCX: " ++
          ("Input file not found: " ++ fxMd.path)) ∧
    (convert_markdown_to_docx fxEnvMissing fxMd fxOut fxConfig
      fxMetrics).2.engineCalls = 0 ∧
    (convert_markdown_to_docx fxEnvMissing fxMd fxOut fxConfig
      fxMetrics).2.attemptsMade = 0 ∧
    (convert_markdown_to_docx fxEnvMissing fxMd fxOut fxConfig
      fxMetrics).2.sleepCalls = 0 ∧
    (convert_markdown_to_docx fxEnvMissing fxMd fxOut fxConfig
      fxMetrics).2.metrics.failed_conversions =
        fxMetrics.failed_conversions + 1 ∧
    (convert_markdown_to_docx fxEnvMissing fxMd fxOut fxConfig
      fxMetrics).2.metrics.successful_conversions =
        fxMetrics.successful_conversions ∧
    (convert_markdown_to_docx fxEnvMissing fxMd fxOut fxConfig
      fxMetrics).2.metrics.errors = setError fxMetrics.errors fxMd.path
        ("Input file not found: " ++ fxMd.path) ∧
    (convert_markdown_to_docx fxEnvMissing fxMd fxOut fxConfig
      fxMetrics).2.metrics.samples = fxMetrics.samples :=
  c4_missing_input fxEnvMissing fxMd fxOut fxConfig fxMetrics
    (Or.inr (by decide))

/-- C10: a successful call leaves the `errors` map and the failure
counter untouched (any stale entry, for the same source path included,
persists verbatim), increments `successful_conversions`, and only appends
one per-file sample via `track_metrics`. -/
theorem c10_success_frame (env : ConvertEnv)
    (markdown_path output_path : PyPath) (config : PandocConfig)
    (metrics : ConversionMetrics) :
    ∀ v m, (convert_markdown_to_docx env markdown_path output_path config
        metrics).1 = IntegrationResult.success v m →
      (convert_markdown_to_docx env markdown_path output_path config
        metrics).2.metrics.errors = metrics.errors ∧
      (∀ k val, getError metrics.errors k = some val →
        getError (convert_markdown_to_docx env markdown_path output_path
          config metrics).2.metrics.errors k = some val) ∧
      (convert_markdown_to_docx env markdown_path output_path config
        metrics).2.metrics.failed_conversions = metrics.failed_conversions ∧
      (convert_markdown_to_docx env markdown_path output_path config
        metrics).2.metrics.successful_conversions =
          metrics.successful_conversions + 1 ∧
      ∃ s, (convert_markdown_to_docx env markdown_path output_path config
        metrics).2.metrics.samples = metrics.samples ++ [s] := by
  intro v m hres
  cases hval : _validate_markdown_input env markdown_path with
  | error msg =>
    rw [show (convert_markdown_to_docx env markdown_path output_path config
        metrics).1 = IntegrationResult.error
          ("Failed to convert Markdown to DOCX: " ++ msg) from
      by simp [convert_markdown_to_docx, hval]] at hres
    exact absurd hres (by simp)
  | ok original_size =>
    simp only [convert_markdown_to_docx, hval] at hres ⊢
    rcases Nat.eq_zero_or_pos
        config.retry_mechanism.max_conversion_retries.toNat with hf | hf
    · rw [hf] at hres
      rw [show (convertLoop env markdown_path output_path config
          original_size 0 0 { metrics := metrics, engineCalls := 0,
                              sleepCalls := 0, attemptsMade := 0 }).1 =
          IntegrationResult.error "Conversion failed after maximum retries"
        from by simp [convertLoop]] at hres
      exact absurd hres (by simp)
    · rcases convertLoop_dichotomy env markdown_path output_path config
          original_size config.retry_mechanism.max_conversion_retries.toNat
          0 { metrics := metrics, engineCalls := 0, sleepCalls := 0,
              attemptsMade := 0 } hf with
        ⟨_, h1, h2, h3, h4⟩ | ⟨emsg, j, _, _, hres', _⟩
      · refine ⟨h3, ?_, h2, h1, h4⟩
        intro k val hk
        rw [h3]
        exact hk
      · rcases hres' with hres' | hres' | hres' <;> rw [hres'] at hres <;>
          exact absurd hres (by simp)

/-- C10 witness: the concrete successful call starting from metrics that
already hold a stale error entry for the same path. -/
theorem c10_success_frame_witness :
    (convert_markdown_to_docx fxEnvOk fxMd fxOut fxConfig
      fxMetrics).2.metrics.errors = fxMetrics.errors ∧
    (∀ k val, getError fxMetrics.errors k = some val →
      getError (convert_markdown_to_docx fxEnvOk fxMd fxOut fxConfig
        fxMetrics).2.metrics.errors k = some val) ∧
    (convert_markdown_to_docx fxEnvOk fxMd fxOut fxConfig
      fxMetrics).2.metrics.failed_conversions =
        fxMetrics.failed_conversions ∧
    (convert_markdown_to_docx fxEnvOk fxMd fxOut fxConfig
      fxMetrics).2.metrics.successful_conversions =
        fxMetrics.successful_conversions + 1 ∧
    ∃ s, (convert_markdown_to_docx fxEnvOk fxMd fxOut fxConfig
      fxMetrics).2.metrics.samples = fxMetrics.samples ++ [s] :=
  c10_success_frame fxEnvOk fxMd fxOut fxConfig fxMetrics
    (fxOut, { source_format := "markdown", target_format := "docx",
              conversion_time := 1, output_size := 400,
              input_size := 500 })
    ("Successfully converted " ++ fxMd.path ++ " to DOCX") (by rfl)

/-- C5: `validate_conversion` accumulates violations: a non-existent
output yields exactly the single existence error, while for an existing
output with both a size violation and a structural violation the returned
list contains the messages of both checks. -/
theorem c5_validation_accumulates (env : ValidateEnv)
    (output_path input_path : PyPath) (original_size : Int)
    (config : PandocConfig) :
    (¬(env.outputInfo.success = true ∧ env.outputInfo.exists' = true) →
      validate_conversion env output_path input_path original_size config =
        ["Output file does not exist: " ++ output_path.path]) ∧
    (env.outputInfo.success = true → env.outputInfo.exists' = true →
      config.validation.verify_structure = true →
      env.outputPathExists = true →
      (check_file_size (coerceSize env.outputInfo.size)
        config.validation.min_file_size).1 = false →
      env.structureValid = false →
      (∀ e ∈ (check_file_size (coerceSize env.outputInfo.size)
          config.validation.min_file_size).2,
        e ∈ validate_conversion env output_path input_path original_size
          config) ∧
      (∀ e ∈ env.structureErrors,
        e ∈ validate_conversion env output_path input_path original_size
          config)) := by
  constructor
  · intro h
    have hc : (env.outputInfo.success && env.outputInfo.exists') = false := by
      cases hs : env.outputInfo.success <;>
        cases he : env.outputInfo.exists' <;> simp_all
    simp [validate_conversion, validate_conversion_logged, hc]
  · intro hs he hv hp hsize hstruct
    have hc : (env.outputInfo.success && env.outputInfo.exists') = true := by
      simp [hs, he]
    refine ⟨?_, ?_⟩ <;> intro e he' <;>
      simp [validate_conversion, validate_conversion_logged, hc, hv, hp,
        hsize, hstruct, List.mem_append] <;>
      tauto

/-- C5 witness: an empty, structurally broken artifact produces both the
size-check message and the structural message; a missing artifact the
single existence error. -/
theorem c5_validation_accumulates_witness :
    ("Output file size 0 is below the minimum threshold 100" ∈
      validate_conversion fxVenvBad fxOut fxMd 500 fxConfig) ∧
    ("DOCX document has no content" ∈
      validate_conversion fxVenvBad fxOut fxMd 500 fxConfig) := by
  have h := (c5_validation_accumulates fxVenvBad fxOut fxMd 500 fxConfig).2
    rfl rfl rfl rfl (by decide) rfl
  exact ⟨h.1 _ (by decide), h.2 _ (by decide)⟩

/-- C6: an existing output artifact of coerced size 0 with positive input
size always fails the conversion-ratio check, so the error list is
non-empty whatever `min_file_size` is configured. -/
theorem c6_degenerate_ratio (env : ValidateEnv)
    (output_path input_path : PyPath) (original_size : Int)
    (config : PandocConfig)
    (hs : env.outputInfo.success = true) (he : env.outputInfo.exists' = true)
    (hz : coerceSize env.outputInfo.size = 0) (hpos : 0 < original_size)
    (hth : 0 < config.validation.conversion_ratio_threshold) :
    validate_conversion env output_path input_path original_size config ≠
      [] := by
  have hc : (env.outputInfo.success && env.outputInfo.exists') = true := by
    simp [hs, he]
  have hnum : 0 < config.validation.conversion_ratio_threshold.num :=
    Rat.num_pos.mpr hth
  have hmax : (1 : Int) ≤ max original_size 1 := le_max_right _ _
  have hlt : (0 : Int) *
      (config.validation.conversion_ratio_threshold.den : Int) <
      config.validation.conversion_ratio_threshold.num *
        max original_size 1 := by nlinarith
  have hratio : (check_conversion_ratio 0 original_size
      config.validation.conversion_ratio_threshold).1 = false := by
    simp only [check_conversion_ratio, if_pos hlt]
  have hr2 : (check_conversion_ratio 0 original_size
      config.validation.conversion_ratio_threshold).2 ≠ [] := by
    simp only [check_conversion_ratio, if_pos hlt]
    simp
  intro hnil
  by_cases hb : (config.validation.verify_structure &&
      env.outputPathExists) = true <;>
    simp [validate_conversion, validate_conversion_logged, hc, hz, hratio,
      hb] at hnil <;>
    exact hr2 (by tauto)

/-- C6 witness: the concrete empty artifact against a 500-byte input. -/
theorem c6_degenerate_ratio_witness :
    validate_conversion fxVenvBad fxOut fxMd 500 fxConfig ≠ [] :=
  c6_degenerate_ratio fxVenvBad fxOut fxMd 500 fxConfig rfl rfl (by decide)
    (by decide) (by decide)

/-- C7: the provenance metadata check never influences the validation
result: the error list of `validate_conversion` is the same for any two
metadata environments, in particular whether or not `python-docx` is
available and whether or not the metadata references the source file. -/
theorem c7_metadata_noninterference (env : ValidateEnv) (m1 m2 : MetaEnv)
    (output_path input_path : PyPath) (original_size : Int)
    (config : PandocConfig) :
    validate_conversion { env with meta := m1 } output_path input_path
        original_size config =
      validate_conversion { env with meta := m2 } output_path input_path
        original_size config := by
  simp only [validate_conversion, validate_conversion_logged]
  split
  · rfl
  · split <;> rfl

/-- C8: for an existing, readable, non-blank input, the reported size is
returned as the input byte size; a `None` or unconvertible size is
coerced to 0 rather than raising. -/
theorem c8_size_coercion (env : ConvertEnv) (markdown_path : PyPath)
    (hs : env.inputInfo.success = true) (he : env.inputInfo.exists' = true)
    (r : ReadResult) (hr : env.readText = Except.ok r)
    (hrs : r.success = true) (hne : pyStripIsEmpty r.content = false) :
    _validate_markdown_input env markdown_path =
      Except.ok (coerceSize env.inputInfo.size) ∧
    ((env.inputInfo.size = none ∨ env.inputInfo.size = some none) →
      coerceSize env.inputInfo.size = 0) ∧
    (∀ n : Int, env.inputInfo.size = some (some n) →
      coerceSize env.inputInfo.size = n) := by
  refine ⟨?_, ?_, ?_⟩
  · simp [_validate_markdown_input, hs, he, hr, hrs, hne]
  · rintro (h | h) <;> simp [h, coerceSize]
  · intro n h
    simp [h, coerceSize]

/-- C8 witness: an input whose reported size is unconvertible validates
to size 0. -/
theorem c8_size_coercion_witness :
    _validate_markdown_input fxEnvBadSize fxMd = Except.ok 0 := by
  have h := c8_size_coercion fxEnvBadSize fxMd rfl rfl
    { success := true, error := "", content := "# title" } rfl rfl (by decide)
  rw [h.1, h.2.1 (Or.inr rfl)]
